import Mathlib

/-!
Shallow embedding of `src/onvif_client.py` (class `ONVIFClient`).

The wrapped third-party library (`onvif.ONVIFCamera`, its service objects,
and the camera on the wire behind them) is modelled as an oracle value of
type `Device`: each library call the client makes is a field of `Device`
whose outcome is `DevResp α` — a normal value, a raised `zeep` `Fault`
(carrying the fault reason string), or some other raised `Exception`
(carrying its message).

Each method of the Python class is embedded as a Lean function from the
oracle and the current object state to an `OpResult α`:
  * `ret`   — what the method hands back to its caller, as
              `Except Exn α` so that an uncaught exception is representable
              (the try/except structure of each method is embedded
              explicitly, so whether an exception can escape is a theorem,
              not a typing accident);
  * `calls` — the network requests issued to the device, in order;
  * `logs`  — the log records emitted, in order, with their payloads;
  * `state` — the object state after the call (only `connect` assigns to
              `self`, and Python keeps the assignments already executed
              when a later statement raises — the embedding mirrors that).

Pan/tilt/zoom velocities are never computed with, only passed through to
the device, so they are carried as an opaque numeric payload type `Vel`.
-/

/-- Payload type for pan/tilt/zoom velocities; the client only forwards
them, so any value type with decidable equality is faithful. -/
def Vel : Type := Rat

instance : DecidableEq Vel := inferInstanceAs (DecidableEq Rat)

instance : OfNat Vel 0 := inferInstanceAs (OfNat Rat 0)

instance : OfNat Vel 1 := inferInstanceAs (OfNat Rat 1)

instance : Repr Vel := inferInstanceAs (Repr Rat)

/-- An exception value as seen by the `except` clauses of the source:
either a `zeep.exceptions.Fault` (with its reason string) or any other
`Exception` (with its message). -/
inductive Exn where
  | fault (reason : String)
  | error (msg : String)
deriving DecidableEq, Repr

/-- Outcome of one call into the wrapped library / camera. -/
inductive DevResp (α : Type) where
  | ok (v : α)
  | fault (reason : String)
  | exn (msg : String)
deriving DecidableEq, Repr

/-- A media profile as used by the client (only `.token` is read). -/
structure Profile where
  token : String
deriving DecidableEq, Repr

/-- The five-field record built by `get_device_information`. -/
structure DeviceInfo where
  Manufacturer : String
  Model : String
  FirmwareVersion : String
  SerialNumber : String
  HardwareId : String
deriving DecidableEq, Repr

/-- The raw capabilities response object: each service element is either
present (with its sub-structure abstracted away) or absent (`None`). -/
structure CapabilitiesResp where
  Analytics : Option Unit
  Device : Option Unit
  Events : Option Unit
  Imaging : Option Unit
  Media : Option Unit
  PTZ : Option Unit
deriving DecidableEq, Repr

/-- The boolean capability record `get_capabilities` returns. -/
structure CapsDict where
  Analytics : Bool
  Device : Bool
  Events : Bool
  Imaging : Bool
  Media : Bool
  PTZ : Bool
deriving DecidableEq, Repr

/-- The `StreamSetup` block sent with a `GetStreamUri` request. -/
structure StreamSetup where
  Stream : String
  Protocol : String
deriving DecidableEq, Repr

/-- A network request issued to the camera, with the payload the client
put into it. -/
inductive NetCall where
  | getDeviceInformation
  | getProfiles
  | getStreamUri (profileToken : String) (setup : StreamSetup)
  | getSnapshotUri (profileToken : String)
  | continuousMove (profileToken : String) (pan tilt zoom : Vel)
  | stopPtz (profileToken : String) (panTilt zoom : Bool)
  | getCapabilities
deriving DecidableEq, Repr

/-- A log record emitted by the client, with the data interpolated into
the message. -/
inductive LogMsg where
  | connecting (host : String) (port : Nat)
  | connected
  | connectFailed (e : Exn)
  | ptzInitWarning (msg : String)
  | deviceServiceNotInit
  | mediaServiceNotInit
  | ptzServiceNotAvailable
  | noProfiles
  | deviceInfoRetrieved (manufacturer model : String)
  | profilesRetrieved (count : Nat)
  | streamUriRetrieved (uri : String)
  | snapshotUriRetrieved (uri : String)
  | ptzMoved (pan tilt zoom : Vel)
  | ptzStopped
  | capabilitiesRetrieved (caps : CapsDict)
  | soapFault (context : String) (reason : String)
  | genericError (context : String) (msg : String)
deriving DecidableEq, Repr

/-- Oracle for the wrapped library and the camera behind it: one field
per distinct call the client can make. -/
structure Device where
  cameraCtor : DevResp Unit
  devicemgmtService : DevResp Unit
  mediaService : DevResp Unit
  ptzServiceCreate : DevResp Unit
  deviceInformationResp : DevResp DeviceInfo
  profilesResp : DevResp (List Profile)
  streamUriResp : String → StreamSetup → DevResp String
  snapshotUriResp : String → DevResp String
  continuousMoveResp : String → Vel → Vel → Vel → DevResp Unit
  stopResp : String → Bool → Bool → DevResp Unit
  capabilitiesResp : DevResp CapabilitiesResp

/-- The mutable attributes of a Python `ONVIFClient` object.  The service
handles are `Option Unit`: `none` embeds the attribute being `None`
(falsy), `some ()` a live service object (truthy). -/
structure ONVIFClient where
  host : String
  port : Nat
  username : String
  password : String
  camera : Option Unit
  device_service : Option Unit
  media_service : Option Unit
  ptz_service : Option Unit
deriving DecidableEq, Repr

/-- `ONVIFClient.__init__`: stores the endpoint and credentials and sets
every handle to `None`. -/
def ONVIFClient.fresh (host : String) (port : Nat) (username password : String) :
    ONVIFClient :=
  { host := host, port := port, username := username, password := password,
    camera := none, device_service := none, media_service := none,
    ptz_service := none }

instance {ε α : Type} [DecidableEq ε] [DecidableEq α] :
    DecidableEq (Except ε α) := fun
  | .ok a, .ok b =>
    if h : a = b then .isTrue (by rw [h]) else .isFalse (by simp [h])
  | .ok _, .error _ => .isFalse (by simp)
  | .error _, .ok _ => .isFalse (by simp)
  | .error a, .error b =>
    if h : a = b then .isTrue (by rw [h]) else .isFalse (by simp [h])

/-- Result of running one method of the client. -/
structure OpResult (α : Type) where
  ret : Except Exn α
  calls : List NetCall
  logs : List LogMsg
  state : ONVIFClient
deriving DecidableEq, Repr

namespace ONVIFClient

/-- `connect` (`onvif_client.py` lines 38-70).  Statement order and the
partial-assignment behaviour on exceptions follow the source: an
exception raised by a later library call leaves the attributes already
assigned in place, and the outer `except Exception` turns any raise into
`return False`. -/
def connect (dev : Device) (s : ONVIFClient) : OpResult Bool :=
  let logs0 := [LogMsg.connecting s.host s.port]
  match dev.cameraCtor with
  | .fault r => ⟨.ok false, [], logs0 ++ [.connectFailed (.fault r)], s⟩
  | .exn m => ⟨.ok false, [], logs0 ++ [.connectFailed (.error m)], s⟩
  | .ok _ =>
    let s1 := { s with camera := some () }
    match dev.devicemgmtService with
    | .fault r => ⟨.ok false, [], logs0 ++ [.connectFailed (.fault r)], s1⟩
    | .exn m => ⟨.ok false, [], logs0 ++ [.connectFailed (.error m)], s1⟩
    | .ok _ =>
      let s2 := { s1 with device_service := some () }
      match dev.mediaService with
      | .fault r => ⟨.ok false, [], logs0 ++ [.connectFailed (.fault r)], s2⟩
      | .exn m => ⟨.ok false, [], logs0 ++ [.connectFailed (.error m)], s2⟩
      | .ok _ =>
        let s3 := { s2 with media_service := some () }
        match dev.ptzServiceCreate with
        | .fault r =>
          ⟨.ok true, [], logs0 ++ [.ptzInitWarning r, .connected],
            { s3 with ptz_service := none }⟩
        | .exn m =>
          ⟨.ok true, [], logs0 ++ [.ptzInitWarning m, .connected],
            { s3 with ptz_service := none }⟩
        | .ok _ =>
          ⟨.ok true, [], logs0 ++ [.connected],
            { s3 with ptz_service := some () }⟩

/-- `get_device_information` (lines 72-102). -/
def get_device_information (dev : Device) (s : ONVIFClient) :
    OpResult (Option DeviceInfo) :=
  match s.device_service with
  | none => ⟨.ok none, [], [.deviceServiceNotInit], s⟩
  | some _ =>
    match dev.deviceInformationResp with
    | .ok info =>
      ⟨.ok (some info), [.getDeviceInformation],
        [.deviceInfoRetrieved info.Manufacturer info.Model], s⟩
    | .fault r =>
      ⟨.ok none, [.getDeviceInformation],
        [.soapFault "getting device info" r], s⟩
    | .exn m =>
      ⟨.ok none, [.getDeviceInformation],
        [.genericError "getting device information" m], s⟩

/-- `get_profiles` (lines 104-125). -/
def get_profiles (dev : Device) (s : ONVIFClient) :
    OpResult (Option (List Profile)) :=
  match s.media_service with
  | none => ⟨.ok none, [], [.mediaServiceNotInit], s⟩
  | some _ =>
    match dev.profilesResp with
    | .ok ps =>
      ⟨.ok (some ps), [.getProfiles], [.profilesRetrieved ps.length], s⟩
    | .fault r =>
      ⟨.ok none, [.getProfiles], [.soapFault "getting profiles" r], s⟩
    | .exn m =>
      ⟨.ok none, [.getProfiles], [.genericError "getting profiles" m], s⟩

/-- The fixed `StreamSetup` block of `get_stream_uri` (lines 154-157). -/
def rtspSetup : StreamSetup := ⟨"RTP-Unicast", "RTSP"⟩

/-- `get_stream_uri` (lines 127-170).  When no token is given the body
calls `self.get_profiles()`; `if not profiles` treats both `None` and an
empty list as "no profiles available". -/
def get_stream_uri (dev : Device) (s : ONVIFClient)
    (profile_token : Option String) : OpResult (Option String) :=
  match s.media_service with
  | none => ⟨.ok none, [], [.mediaServiceNotInit], s⟩
  | some _ =>
    let resolved : Except Exn (Option String) × List NetCall × List LogMsg :=
      match profile_token with
      | some t => (.ok (some t), [], [])
      | none =>
        let pr := get_profiles dev s
        match pr.ret with
        | .ok none => (.ok none, pr.calls, pr.logs ++ [.noProfiles])
        | .ok (some []) => (.ok none, pr.calls, pr.logs ++ [.noProfiles])
        | .ok (some (p :: _)) => (.ok (some p.token), pr.calls, pr.logs)
        | .error e => (.error e, pr.calls, pr.logs)
    match resolved with
    | (.error e, calls, logs) =>
      -- an exception from the inner call is caught by this method's own
      -- except clauses
      match e with
      | .fault r =>
        ⟨.ok none, calls, logs ++ [.soapFault "getting stream URI" r], s⟩
      | .error m =>
        ⟨.ok none, calls, logs ++ [.genericError "getting stream URI" m], s⟩
    | (.ok none, calls, logs) => ⟨.ok none, calls, logs, s⟩
    | (.ok (some tok), calls, logs) =>
      match dev.streamUriResp tok rtspSetup with
      | .ok uri =>
        ⟨.ok (some uri), calls ++ [.getStreamUri tok rtspSetup],
          logs ++ [.streamUriRetrieved uri], s⟩
      | .fault r =>
        ⟨.ok none, calls ++ [.getStreamUri tok rtspSetup],
          logs ++ [.soapFault "getting stream URI" r], s⟩
      | .exn m =>
        ⟨.ok none, calls ++ [.getStreamUri tok rtspSetup],
          logs ++ [.genericError "getting stream URI" m], s⟩

/-- `get_snapshot_uri` (lines 172-211). -/
def get_snapshot_uri (dev : Device) (s : ONVIFClient)
    (profile_token : Option String) : OpResult (Option String) :=
  match s.media_service with
  | none => ⟨.ok none, [], [.mediaServiceNotInit], s⟩
  | some _ =>
    let resolved : Except Exn (Option String) × List NetCall × List LogMsg :=
      match profile_token with
      | some t => (.ok (some t), [], [])
      | none =>
        let pr := get_profiles dev s
        match pr.ret with
        | .ok none => (.ok none, pr.calls, pr.logs ++ [.noProfiles])
        | .ok (some []) => (.ok none, pr.calls, pr.logs ++ [.noProfiles])
        | .ok (some (p :: _)) => (.ok (some p.token), pr.calls, pr.logs)
        | .error e => (.error e, pr.calls, pr.logs)
    match resolved with
    | (.error e, calls, logs) =>
      match e with
      | .fault r =>
        ⟨.ok none, calls, logs ++ [.soapFault "getting snapshot URI" r], s⟩
      | .error m =>
        ⟨.ok none, calls, logs ++ [.genericError "getting snapshot URI" m], s⟩
    | (.ok none, calls, logs) => ⟨.ok none, calls, logs, s⟩
    | (.ok (some tok), calls, logs) =>
      match dev.snapshotUriResp tok with
      | .ok uri =>
        ⟨.ok (some uri), calls ++ [.getSnapshotUri tok],
          logs ++ [.snapshotUriRetrieved uri], s⟩
      | .fault r =>
        ⟨.ok none, calls ++ [.getSnapshotUri tok],
          logs ++ [.soapFault "getting snapshot URI" r], s⟩
      | .exn m =>
        ⟨.ok none, calls ++ [.getSnapshotUri tok],
          logs ++ [.genericError "getting snapshot URI" m], s⟩

/-- `move_ptz` (lines 213-257).  The PTZ-handle guard runs before any
profile resolution. -/
def move_ptz (dev : Device) (s : ONVIFClient) (pan tilt zoom : Vel)
    (profile_token : Option String) : OpResult Bool :=
  match s.ptz_service with
  | none => ⟨.ok false, [], [.ptzServiceNotAvailable], s⟩
  | some _ =>
    let resolved : Except Exn (Option String) × List NetCall × List LogMsg :=
      match profile_token with
      | some t => (.ok (some t), [], [])
      | none =>
        let pr := get_profiles dev s
        match pr.ret with
        | .ok none => (.ok none, pr.calls, pr.logs ++ [.noProfiles])
        | .ok (some []) => (.ok none, pr.calls, pr.logs ++ [.noProfiles])
        | .ok (some (p :: _)) => (.ok (some p.token), pr.calls, pr.logs)
        | .error e => (.error e, pr.calls, pr.logs)
    match resolved with
    | (.error e, calls, logs) =>
      match e with
      | .fault r =>
        ⟨.ok false, calls, logs ++ [.soapFault "moving PTZ" r], s⟩
      | .error m =>
        ⟨.ok false, calls, logs ++ [.genericError "moving PTZ" m], s⟩
    | (.ok none, calls, logs) => ⟨.ok false, calls, logs, s⟩
    | (.ok (some tok), calls, logs) =>
      match dev.continuousMoveResp tok pan tilt zoom with
      | .ok _ =>
        ⟨.ok true, calls ++ [.continuousMove tok pan tilt zoom],
          logs ++ [.ptzMoved pan tilt zoom], s⟩
      | .fault r =>
        ⟨.ok false, calls ++ [.continuousMove tok pan tilt zoom],
          logs ++ [.soapFault "moving PTZ" r], s⟩
      | .exn m =>
        ⟨.ok false, calls ++ [.continuousMove tok pan tilt zoom],
          logs ++ [.genericError "moving PTZ" m], s⟩

/-- `stop_ptz` (lines 259-297).  Both axes are always requested
(`PanTilt = True`, `Zoom = True`). -/
def stop_ptz (dev : Device) (s : ONVIFClient)
    (profile_token : Option String) : OpResult Bool :=
  match s.ptz_service with
  | none => ⟨.ok false, [], [.ptzServiceNotAvailable], s⟩
  | some _ =>
    let resolved : Except Exn (Option String) × List NetCall × List LogMsg :=
      match profile_token with
      | some t => (.ok (some t), [], [])
      | none =>
        let pr := get_profiles dev s
        match pr.ret with
        | .ok none => (.ok none, pr.calls, pr.logs ++ [.noProfiles])
        | .ok (some []) => (.ok none, pr.calls, pr.logs ++ [.noProfiles])
        | .ok (some (p :: _)) => (.ok (some p.token), pr.calls, pr.logs)
        | .error e => (.error e, pr.calls, pr.logs)
    match resolved with
    | (.error e, calls, logs) =>
      match e with
      | .fault r =>
        ⟨.ok false, calls, logs ++ [.soapFault "stopping PTZ" r], s⟩
      | .error m =>
        ⟨.ok false, calls, logs ++ [.genericError "stopping PTZ" m], s⟩
    | (.ok none, calls, logs) => ⟨.ok false, calls, logs, s⟩
    | (.ok (some tok), calls, logs) =>
      match dev.stopResp tok true true with
      | .ok _ =>
        ⟨.ok true, calls ++ [.stopPtz tok true true],
          logs ++ [.ptzStopped], s⟩
      | .fault r =>
        ⟨.ok false, calls ++ [.stopPtz tok true true],
          logs ++ [.soapFault "stopping PTZ" r], s⟩
      | .exn m =>
        ⟨.ok false, calls ++ [.stopPtz tok true true],
          logs ++ [.genericError "stopping PTZ" m], s⟩

/-- `get_capabilities` (lines 299-330): each flag is
`response.<Service> is not None`. -/
def get_capabilities (dev : Device) (s : ONVIFClient) :
    OpResult (Option CapsDict) :=
  match s.device_service with
  | none => ⟨.ok none, [], [.deviceServiceNotInit], s⟩
  | some _ =>
    match dev.capabilitiesResp with
    | .ok caps =>
      let d : CapsDict :=
        { Analytics := caps.Analytics.isSome
          Device := caps.Device.isSome
          Events := caps.Events.isSome
          Imaging := caps.Imaging.isSome
          Media := caps.Media.isSome
          PTZ := caps.PTZ.isSome }
      ⟨.ok (some d), [.getCapabilities], [.capabilitiesRetrieved d], s⟩
    | .fault r =>
      ⟨.ok none, [.getCapabilities], [.soapFault "getting capabilities" r], s⟩
    | .exn m =>
      ⟨.ok none, [.getCapabilities],
        [.genericError "getting capabilities" m], s⟩

end ONVIFClient

/-! Concrete device behaviours used to instantiate the theorems. -/

/-- A fixed device-information record. -/
def info0 : DeviceInfo :=
  { Manufacturer := "Acme", Model := "X1", FirmwareVersion := "1.0",
    SerialNumber := "SN42", HardwareId := "HW7" }

/-- A well-behaved camera: every library call succeeds, two media
profiles `P1`, `P2`, all capability elements except Events and Imaging
present. -/
def okDevice : Device :=
  { cameraCtor := .ok ()
    devicemgmtService := .ok ()
    mediaService := .ok ()
    ptzServiceCreate := .ok ()
    deviceInformationResp := .ok info0
    profilesResp := .ok [⟨"P1"⟩, ⟨"P2"⟩]
    streamUriResp := fun t _ => .ok ("rtsp://cam/" ++ t)
    snapshotUriResp := fun t => .ok ("http://cam/" ++ t)
    continuousMoveResp := fun _ _ _ _ => .ok ()
    stopResp := fun _ _ _ => .ok ()
    capabilitiesResp := .ok ⟨some (), some (), none, none, some (), some ()⟩ }

/-- A camera on which every library call raises a plain `Exception`
carrying message `m`. -/
def devAllExn (m : String) : Device :=
  { cameraCtor := .exn m
    devicemgmtService := .exn m
    mediaService := .exn m
    ptzServiceCreate := .exn m
    deviceInformationResp := .exn m
    profilesResp := .exn m
    streamUriResp := fun _ _ => .exn m
    snapshotUriResp := fun _ => .exn m
    continuousMoveResp := fun _ _ _ _ => .exn m
    stopResp := fun _ _ _ => .exn m
    capabilitiesResp := .exn m }

/-- A camera on which every library call raises a `zeep` `Fault` with
reason `r`. -/
def devAllFault (r : String) : Device :=
  { cameraCtor := .fault r
    devicemgmtService := .fault r
    mediaService := .fault r
    ptzServiceCreate := .fault r
    deviceInformationResp := .fault r
    profilesResp := .fault r
    streamUriResp := fun _ _ => .fault r
    snapshotUriResp := fun _ => .fault r
    continuousMoveResp := fun _ _ _ _ => .fault r
    stopResp := fun _ _ _ => .fault r
    capabilitiesResp := .fault r }

/-- A device on which creating the media service raises, while the
camera constructor and the device-management service succeed. -/
def devMediaInitFails : Device :=
  { okDevice with mediaService := .exn "media init failed" }

/-- A device whose `GetDeviceInformation` answer is a SOAP Fault. -/
def devInfoFaults : Device :=
  { okDevice with deviceInformationResp := .fault "Unauthorized" }

/-- A device on which `GetDeviceInformation` raises a non-Fault
exception (e.g. a transport timeout). -/
def devInfoRaises : Device :=
  { okDevice with deviceInformationResp := .exn "timeout" }

/-- A device whose PTZ service cannot be created. -/
def devNoPtz : Device :=
  { okDevice with ptzServiceCreate := .exn "no ptz service" }

/-- A client state in which every service handle is live, as after a
fully successful `connect`. -/
def connectedState : ONVIFClient :=
  { host := "cam.local", port := 80, username := "admin", password := "pw",
    camera := some (), device_service := some (), media_service := some (),
    ptz_service := some () }

/-- The profile tokens a `get_profiles` caller receives, when the call
returned a list. -/
def tokensOf : Except Exn (Option (List Profile)) → Option (List String)
  | .ok (some ps) => some (ps.map Profile.token)
  | _ => none

/-! Theorems. -/

/-- C1 (amended): on a freshly constructed client — before any
`connect()` attempt, while every service handle is still `None` — each
of the seven public operations returns its failure value (`None` for the
getters, `False` for the PTZ commands) and issues no network call to the
device. -/
theorem C1_fresh_client_no_operation_reaches_network (dev : Device)
    (h : String) (p : Nat) (u w : String) (tok : Option String)
    (pan tilt zoom : Vel) :
    ((ONVIFClient.get_device_information dev (ONVIFClient.fresh h p u w)).ret = .ok none ∧
      (ONVIFClient.get_device_information dev (ONVIFClient.fresh h p u w)).calls = []) ∧
    ((ONVIFClient.get_profiles dev (ONVIFClient.fresh h p u w)).ret = .ok none ∧
      (ONVIFClient.get_profiles dev (ONVIFClient.fresh h p u w)).calls = []) ∧
    ((ONVIFClient.get_stream_uri dev (ONVIFClient.fresh h p u w) tok).ret = .ok none ∧
      (ONVIFClient.get_stream_uri dev (ONVIFClient.fresh h p u w) tok).calls = []) ∧
    ((ONVIFClient.get_snapshot_uri dev (ONVIFClient.fresh h p u w) tok).ret = .ok none ∧
      (ONVIFClient.get_snapshot_uri dev (ONVIFClient.fresh h p u w) tok).calls = []) ∧
    ((ONVIFClient.move_ptz dev (ONVIFClient.fresh h p u w) pan tilt zoom tok).ret = .ok false ∧
      (ONVIFClient.move_ptz dev (ONVIFClient.fresh h p u w) pan tilt zoom tok).calls = []) ∧
    ((ONVIFClient.stop_ptz dev (ONVIFClient.fresh h p u w) tok).ret = .ok false ∧
      (ONVIFClient.stop_ptz dev (ONVIFClient.fresh h p u w) tok).calls = []) ∧
    ((ONVIFClient.get_capabilities dev (ONVIFClient.fresh h p u w)).ret = .ok none ∧
      (ONVIFClient.get_capabilities dev (ONVIFClient.fresh h p u w)).calls = []) :=
  ⟨⟨rfl, rfl⟩, ⟨rfl, rfl⟩, ⟨rfl, rfl⟩, ⟨rfl, rfl⟩, ⟨rfl, rfl⟩, ⟨rfl, rfl⟩,
    ⟨rfl, rfl⟩⟩

/-- C1 counterexample: after a `connect()` attempt that failed while
creating the media service — so no successful `connect()` has ever
completed — the device-management handle is already assigned, and
`get_device_information` does reach the network and even succeeds,
refuting both the "fails" and the "no network call" parts of the claim
for states merely "before a successful connect()". -/
theorem C1_counterexample :
    (ONVIFClient.connect devMediaInitFails
        (ONVIFClient.fresh "cam.local" 80 "admin" "pw")).ret = .ok false ∧
    (ONVIFClient.get_device_information devMediaInitFails
        (ONVIFClient.connect devMediaInitFails
          (ONVIFClient.fresh "cam.local" 80 "admin" "pw")).state).calls =
      [.getDeviceInformation] ∧
    (ONVIFClient.get_device_information devMediaInitFails
        (ONVIFClient.connect devMediaInitFails
          (ONVIFClient.fresh "cam.local" 80 "admin" "pw")).state).ret =
      .ok (some info0) := by
  decide

/-- C2: a `move_ptz` or `stop_ptz` call on a session whose PTZ service
handle is absent returns `False` with the "PTZ service not available"
log record and issues no network call to the device. -/
theorem C2_ptz_ops_fail_without_ptz_service (dev : Device) (s : ONVIFClient)
    (pan tilt zoom : Vel) (tok : Option String)
    (hptz : s.ptz_service = none) :
    (ONVIFClient.move_ptz dev s pan tilt zoom tok).ret = .ok false ∧
    (ONVIFClient.move_ptz dev s pan tilt zoom tok).calls = [] ∧
    (ONVIFClient.move_ptz dev s pan tilt zoom tok).logs =
      [.ptzServiceNotAvailable] ∧
    (ONVIFClient.stop_ptz dev s tok).ret = .ok false ∧
    (ONVIFClient.stop_ptz dev s tok).calls = [] ∧
    (ONVIFClient.stop_ptz dev s tok).logs = [.ptzServiceNotAvailable] := by
  unfold ONVIFClient.move_ptz ONVIFClient.stop_ptz
  rw [hptz]
  exact ⟨rfl, rfl, rfl, rfl, rfl, rfl⟩

/-- C2 witness: the hypotheses of
`C2_ptz_ops_fail_without_ptz_service` hold at a concrete input. -/
theorem C2_ptz_ops_fail_without_ptz_service_witness :
    (ONVIFClient.fresh "cam.local" 80 "admin" "pw").ptz_service = none ∧
    ((ONVIFClient.move_ptz okDevice (ONVIFClient.fresh "cam.local" 80 "admin" "pw")
        0 0 1 none).ret = .ok false ∧
      (ONVIFClient.move_ptz okDevice (ONVIFClient.fresh "cam.local" 80 "admin" "pw")
        0 0 1 none).calls = [] ∧
      (ONVIFClient.move_ptz okDevice (ONVIFClient.fresh "cam.local" 80 "admin" "pw")
        0 0 1 none).logs = [.ptzServiceNotAvailable] ∧
      (ONVIFClient.stop_ptz okDevice (ONVIFClient.fresh "cam.local" 80 "admin" "pw")
        none).ret = .ok false ∧
      (ONVIFClient.stop_ptz okDevice (ONVIFClient.fresh "cam.local" 80 "admin" "pw")
        none).calls = [] ∧
      (ONVIFClient.stop_ptz okDevice (ONVIFClient.fresh "cam.local" 80 "admin" "pw")
        none).logs = [.ptzServiceNotAvailable]) :=
  ⟨rfl, C2_ptz_ops_fail_without_ptz_service okDevice
    (ONVIFClient.fresh "cam.local" 80 "admin" "pw") 0 0 1 none rfl⟩

/-- C3 counterexample: when the device answers `GetDeviceInformation`
with a SOAP Fault whose reason is `"Unauthorized"`, the caller receives
plain `None` — the very same value it receives from a non-Fault
transport error — so no typed `ProtocolFault` result carrying the fault
reason reaches the caller. -/
theorem C3_counterexample :
    (ONVIFClient.get_device_information devInfoFaults connectedState).ret =
      .ok none ∧
    (ONVIFClient.get_device_information devInfoRaises connectedState).ret =
      .ok none ∧
    (ONVIFClient.get_device_information devInfoFaults connectedState).ret =
      (ONVIFClient.get_device_information devInfoRaises connectedState).ret := by
  decide

/-- C3 (amended): when the device answers `GetDeviceInformation` with a
SOAP Fault, `get_device_information` catches the Fault and returns
`None` to the caller; the fault reason string is carried only into the
error-log record, not into the returned value. -/
theorem C3_soap_fault_returns_none_and_logs_reason (dev : Device)
    (s : ONVIFClient) (r : String) (hs : s.device_service = some ())
    (hf : dev.deviceInformationResp = .fault r) :
    (ONVIFClient.get_device_information dev s).ret = .ok none ∧
    (ONVIFClient.get_device_information dev s).logs =
      [.soapFault "getting device info" r] := by
  unfold ONVIFClient.get_device_information
  rw [hs, hf]
  exact ⟨rfl, rfl⟩

/-- C3 witness: the hypotheses of
`C3_soap_fault_returns_none_and_logs_reason` hold at a concrete input. -/
theorem C3_soap_fault_returns_none_and_logs_reason_witness :
    connectedState.device_service = some () ∧
    devInfoFaults.deviceInformationResp = .fault "Unauthorized" ∧
    ((ONVIFClient.get_device_information devInfoFaults connectedState).ret =
        .ok none ∧
      (ONVIFClient.get_device_information devInfoFaults connectedState).logs =
        [.soapFault "getting device info" "Unauthorized"]) :=
  ⟨rfl, rfl,
    C3_soap_fault_returns_none_and_logs_reason devInfoFaults connectedState
      "Unauthorized" rfl rfl⟩

/-- C4: when the profile token is omitted and the device reports a
non-empty profile list, `get_stream_uri`, `get_snapshot_uri`, `move_ptz`
and `stop_ptz` all resolve the token to the token of the first profile
in the list: each fetches the profile list once and then issues its
request with that token. -/
theorem C4_omitted_token_resolves_to_first_profile (dev : Device)
    (s : ONVIFClient) (p : Profile) (ps : List Profile)
    (pan tilt zoom : Vel) (hm : s.media_service = some ())
    (hp : s.ptz_service = some ())
    (hprof : dev.profilesResp = .ok (p :: ps)) :
    (ONVIFClient.get_stream_uri dev s none).calls =
      [.getProfiles, .getStreamUri p.token ONVIFClient.rtspSetup] ∧
    (ONVIFClient.get_snapshot_uri dev s none).calls =
      [.getProfiles, .getSnapshotUri p.token] ∧
    (ONVIFClient.move_ptz dev s pan tilt zoom none).calls =
      [.getProfiles, .continuousMove p.token pan tilt zoom] ∧
    (ONVIFClient.stop_ptz dev s none).calls =
      [.getProfiles, .stopPtz p.token true true] := by
  refine ⟨?_, ?_, ?_, ?_⟩
  · cases hres : dev.streamUriResp p.token ONVIFClient.rtspSetup <;>
      simp [ONVIFClient.get_stream_uri, ONVIFClient.get_profiles, hm, hprof,
        hres]
  · cases hres : dev.snapshotUriResp p.token <;>
      simp [ONVIFClient.get_snapshot_uri, ONVIFClient.get_profiles, hm, hprof,
        hres]
  · cases hres : dev.continuousMoveResp p.token pan tilt zoom <;>
      simp [ONVIFClient.move_ptz, ONVIFClient.get_profiles, hm, hp, hprof,
        hres]
  · cases hres : dev.stopResp p.token true true <;>
      simp [ONVIFClient.stop_ptz, ONVIFClient.get_profiles, hm, hp, hprof,
        hres]

/-- C4 witness: the hypotheses of
`C4_omitted_token_resolves_to_first_profile` hold at a concrete input —
with profile list `[{token: "P1"}, {token: "P2"}]` the resolved token is
`"P1"`. -/
theorem C4_omitted_token_resolves_to_first_profile_witness :
    connectedState.media_service = some () ∧
    connectedState.ptz_service = some () ∧
    okDevice.profilesResp = .ok [⟨"P1"⟩, ⟨"P2"⟩] ∧
    ((ONVIFClient.get_stream_uri okDevice connectedState none).calls =
        [.getProfiles, .getStreamUri "P1" ONVIFClient.rtspSetup] ∧
      (ONVIFClient.get_snapshot_uri okDevice connectedState none).calls =
        [.getProfiles, .getSnapshotUri "P1"] ∧
      (ONVIFClient.move_ptz okDevice connectedState 0 0 1 none).calls =
        [.getProfiles, .continuousMove "P1" 0 0 1] ∧
      (ONVIFClient.stop_ptz okDevice connectedState none).calls =
        [.getProfiles, .stopPtz "P1" true true]) :=
  ⟨rfl, rfl, rfl,
    C4_omitted_token_resolves_to_first_profile okDevice connectedState
      ⟨"P1"⟩ [⟨"P2"⟩] 0 0 1 rfl rfl rfl⟩

/-- C5: on a freshly constructed client, `connect` returns `True`
exactly when the device-management and media service handles both come
out resolved; and when only the PTZ service fails to initialise while
camera construction, device-management and media succeed, `connect`
still returns `True` with the PTZ handle left unset. -/
theorem C5_connect_iff_device_and_media_resolve (dev : Device)
    (h : String) (p : Nat) (u w : String) :
    ((ONVIFClient.connect dev (ONVIFClient.fresh h p u w)).ret = .ok true ↔
      ((ONVIFClient.connect dev (ONVIFClient.fresh h p u w)).state.device_service =
          some () ∧
        (ONVIFClient.connect dev (ONVIFClient.fresh h p u w)).state.media_service =
          some ())) ∧
    (dev.cameraCtor = .ok () → dev.devicemgmtService = .ok () →
      dev.mediaService = .ok () → dev.ptzServiceCreate ≠ .ok () →
      (ONVIFClient.connect dev (ONVIFClient.fresh h p u w)).ret = .ok true ∧
      (ONVIFClient.connect dev (ONVIFClient.fresh h p u w)).state.ptz_service =
        none) := by
  obtain ⟨c, dm, me, pz, i1, i2, i3, i4, i5, i6, i7⟩ := dev
  rcases c with ⟨⟨⟩⟩ | r1 | m1 <;> rcases dm with ⟨⟨⟩⟩ | r2 | m2 <;>
    rcases me with ⟨⟨⟩⟩ | r3 | m3 <;> rcases pz with ⟨⟨⟩⟩ | r4 | m4 <;>
    simp [ONVIFClient.connect, ONVIFClient.fresh]

/-- C5 witness: the hypotheses of the PTZ-optional part of
`C5_connect_iff_device_and_media_resolve` hold at a concrete input. -/
theorem C5_connect_iff_device_and_media_resolve_witness :
    devNoPtz.cameraCtor = .ok () ∧
    devNoPtz.devicemgmtService = .ok () ∧
    devNoPtz.mediaService = .ok () ∧
    devNoPtz.ptzServiceCreate ≠ .ok () ∧
    ((ONVIFClient.connect devNoPtz
        (ONVIFClient.fresh "cam.local" 80 "admin" "pw")).ret = .ok true ∧
      (ONVIFClient.connect devNoPtz
        (ONVIFClient.fresh "cam.local" 80 "admin" "pw")).state.ptz_service =
        none) :=
  ⟨rfl, rfl, rfl, by decide,
    (C5_connect_iff_device_and_media_resolve devNoPtz "cam.local" 80 "admin"
      "pw").2 rfl rfl rfl (by decide)⟩

/-- C6: when the device answers `GetCapabilities`, `get_capabilities`
returns (not an error) a boolean for each of the six services that is
`false` exactly when the corresponding element is absent from the
response. -/
theorem C6_capability_flags_mirror_element_presence (dev : Device)
    (s : ONVIFClient) (caps : CapabilitiesResp)
    (hs : s.device_service = some ())
    (hc : dev.capabilitiesResp = .ok caps) :
    ∃ d : CapsDict,
      (ONVIFClient.get_capabilities dev s).ret = .ok (some d) ∧
      (d.Analytics = false ↔ caps.Analytics = none) ∧
      (d.Device = false ↔ caps.Device = none) ∧
      (d.Events = false ↔ caps.Events = none) ∧
      (d.Imaging = false ↔ caps.Imaging = none) ∧
      (d.Media = false ↔ caps.Media = none) ∧
      (d.PTZ = false ↔ caps.PTZ = none) := by
  refine ⟨⟨caps.Analytics.isSome, caps.Device.isSome, caps.Events.isSome,
    caps.Imaging.isSome, caps.Media.isSome, caps.PTZ.isSome⟩,
    ?_, ?_, ?_, ?_, ?_, ?_, ?_⟩
  · simp [ONVIFClient.get_capabilities, hs, hc]
  · cases caps.Analytics <;> simp
  · cases caps.Device <;> simp
  · cases caps.Events <;> simp
  · cases caps.Imaging <;> simp
  · cases caps.Media <;> simp
  · cases caps.PTZ <;> simp

/-- C6 witness: the hypotheses of
`C6_capability_flags_mirror_element_presence` hold at a concrete
input. -/
theorem C6_capability_flags_mirror_element_presence_witness :
    connectedState.device_service = some () ∧
    okDevice.capabilitiesResp =
      .ok ⟨some (), some (), none, none, some (), some ()⟩ ∧
    (∃ d : CapsDict,
      (ONVIFClient.get_capabilities okDevice connectedState).ret =
        .ok (some d) ∧
      (d.Analytics = false ↔
        (⟨some (), some (), none, none, some (), some ()⟩ :
          CapabilitiesResp).Analytics = none) ∧
      (d.Device = false ↔
        (⟨some (), some (), none, none, some (), some ()⟩ :
          CapabilitiesResp).Device = none) ∧
      (d.Events = false ↔
        (⟨some (), some (), none, none, some (), some ()⟩ :
          CapabilitiesResp).Events = none) ∧
      (d.Imaging = false ↔
        (⟨some (), some (), none, none, some (), some ()⟩ :
          CapabilitiesResp).Imaging = none) ∧
      (d.Media = false ↔
        (⟨some (), some (), none, none, some (), some ()⟩ :
          CapabilitiesResp).Media = none) ∧
      (d.PTZ = false ↔
        (⟨some (), some (), none, none, some (), some ()⟩ :
          CapabilitiesResp).PTZ = none)) :=
  ⟨rfl, rfl,
    C6_capability_flags_mirror_element_presence okDevice connectedState
      ⟨some (), some (), none, none, some (), some ()⟩ rfl rfl⟩

/-- C7: no public operation other than `connect` modifies the client
object: for every device behaviour, state and arguments, each of the
seven operations leaves the whole state — endpoint fields, credentials
and all three service handles — exactly as it found it. -/
theorem C7_operations_leave_state_unchanged (dev : Device) (s : ONVIFClient)
    (tok : Option String) (pan tilt zoom : Vel) :
    (ONVIFClient.get_device_information dev s).state = s ∧
    (ONVIFClient.get_profiles dev s).state = s ∧
    (ONVIFClient.get_stream_uri dev s tok).state = s ∧
    (ONVIFClient.get_snapshot_uri dev s tok).state = s ∧
    (ONVIFClient.move_ptz dev s pan tilt zoom tok).state = s ∧
    (ONVIFClient.stop_ptz dev s tok).state = s ∧
    (ONVIFClient.get_capabilities dev s).state = s := by
  unfold ONVIFClient.get_device_information ONVIFClient.get_stream_uri
    ONVIFClient.get_snapshot_uri ONVIFClient.move_ptz ONVIFClient.stop_ptz
    ONVIFClient.get_capabilities ONVIFClient.get_profiles
  refine ⟨?_, ?_, ?_, ?_, ?_, ?_, ?_⟩ <;>
    (repeat' first
      | rfl
      | split
      | dsimp only)

/-- C8: two successive `get_profiles` calls against device snapshots
whose `GetProfiles` answer is the same return the same profile tokens:
the first call leaves the client state unchanged and the result depends
only on that answer. -/
theorem C8_get_profiles_idempotent_read (dev dev' : Device)
    (s : ONVIFClient) (hsame : dev.profilesResp = dev'.profilesResp) :
    tokensOf (ONVIFClient.get_profiles dev s).ret =
      tokensOf (ONVIFClient.get_profiles dev'
        ((ONVIFClient.get_profiles dev s).state)).ret := by
  have hst : (ONVIFClient.get_profiles dev s).state = s := by
    cases hm : s.media_service <;> cases hp : dev.profilesResp <;>
      simp [ONVIFClient.get_profiles, hm, hp]
  rw [hst]
  unfold ONVIFClient.get_profiles
  rw [hsame]

/-- C8 witness: the hypothesis of `C8_get_profiles_idempotent_read`
holds at a concrete input, where both reads yield tokens
`["P1", "P2"]`. -/
theorem C8_get_profiles_idempotent_read_witness :
    okDevice.profilesResp = okDevice.profilesResp ∧
    tokensOf (ONVIFClient.get_profiles okDevice connectedState).ret =
      tokensOf (ONVIFClient.get_profiles okDevice
        ((ONVIFClient.get_profiles okDevice connectedState).state)).ret ∧
    tokensOf (ONVIFClient.get_profiles okDevice connectedState).ret =
      some ["P1", "P2"] :=
  ⟨rfl, C8_get_profiles_idempotent_read okDevice okDevice connectedState rfl,
    by decide⟩

/-- C9: no public method lets an exception escape to its caller: for
every device behaviour and state each method's outcome is a normal
return, and on a device every one of whose library calls raises — a
plain exception or a `zeep` `Fault` — each method returns its failure
value (`None` for the getters, `False` for connect and the PTZ
commands). -/
theorem C9_no_exception_escapes (dev : Device) (s : ONVIFClient)
    (tok : Option String) (pan tilt zoom : Vel) (m r : String) :
    ((ONVIFClient.connect dev s).ret.isOk = true ∧
      (ONVIFClient.get_device_information dev s).ret.isOk = true ∧
      (ONVIFClient.get_profiles dev s).ret.isOk = true ∧
      (ONVIFClient.get_stream_uri dev s tok).ret.isOk = true ∧
      (ONVIFClient.get_snapshot_uri dev s tok).ret.isOk = true ∧
      (ONVIFClient.move_ptz dev s pan tilt zoom tok).ret.isOk = true ∧
      (ONVIFClient.stop_ptz dev s tok).ret.isOk = true ∧
      (ONVIFClient.get_capabilities dev s).ret.isOk = true) ∧
    ((ONVIFClient.connect (devAllExn m) s).ret = .ok false ∧
      (ONVIFClient.get_device_information (devAllExn m) s).ret = .ok none ∧
      (ONVIFClient.get_profiles (devAllExn m) s).ret = .ok none ∧
      (ONVIFClient.get_stream_uri (devAllExn m) s tok).ret = .ok none ∧
      (ONVIFClient.get_snapshot_uri (devAllExn m) s tok).ret = .ok none ∧
      (ONVIFClient.move_ptz (devAllExn m) s pan tilt zoom tok).ret = .ok false ∧
      (ONVIFClient.stop_ptz (devAllExn m) s tok).ret = .ok false ∧
      (ONVIFClient.get_capabilities (devAllExn m) s).ret = .ok none) ∧
    ((ONVIFClient.connect (devAllFault r) s).ret = .ok false ∧
      (ONVIFClient.get_device_information (devAllFault r) s).ret = .ok none ∧
      (ONVIFClient.get_profiles (devAllFault r) s).ret = .ok none ∧
      (ONVIFClient.get_stream_uri (devAllFault r) s tok).ret = .ok none ∧
      (ONVIFClient.get_snapshot_uri (devAllFault r) s tok).ret = .ok none ∧
      (ONVIFClient.move_ptz (devAllFault r) s pan tilt zoom tok).ret =
        .ok false ∧
      (ONVIFClient.stop_ptz (devAllFault r) s tok).ret = .ok false ∧
      (ONVIFClient.get_capabilities (devAllFault r) s).ret = .ok none) := by
  unfold ONVIFClient.connect ONVIFClient.get_device_information
    ONVIFClient.get_stream_uri ONVIFClient.get_snapshot_uri
    ONVIFClient.move_ptz ONVIFClient.stop_ptz ONVIFClient.get_capabilities
    ONVIFClient.get_profiles devAllExn devAllFault
  refine ⟨⟨?_, ?_, ?_, ?_, ?_, ?_, ?_, ?_⟩, ⟨?_, ?_, ?_, ?_, ?_, ?_, ?_, ?_⟩,
    ⟨?_, ?_, ?_, ?_, ?_, ?_, ?_, ?_⟩⟩ <;>
    (repeat' first
      | rfl
      | split
      | dsimp only)

/-- C10: every `GetStreamUri` request `get_stream_uri` ever issues — for
any device behaviour, state and argument — carries the fixed
`StreamSetup` of `Stream = RTP-Unicast`, `Transport.Protocol = RTSP`. -/
theorem C10_stream_setup_fixed_rtp_unicast_rtsp (dev : Device)
    (s : ONVIFClient) (tok : Option String) (t : String) (su : StreamSetup)
    (hmem : NetCall.getStreamUri t su ∈
      (ONVIFClient.get_stream_uri dev s tok).calls) :
    su = ONVIFClient.rtspSetup := by
  unfold ONVIFClient.get_stream_uri ONVIFClient.get_profiles at hmem
  repeat' first
    | split at hmem
    | dsimp only at hmem
  all_goals try cases ‹List Profile›
  all_goals try simp_all
  all_goals
    first
    | (obtain ⟨-, hcalls, -⟩ := ‹_ ∧ _ ∧ _›
       subst hcalls
       simp_all)
    | (obtain ⟨hcalls, -⟩ := ‹_ ∧ _›
       subst hcalls
       simp_all)

/-- C10 witness: the hypothesis of
`C10_stream_setup_fixed_rtp_unicast_rtsp` holds at a concrete input. -/
theorem C10_stream_setup_fixed_rtp_unicast_rtsp_witness :
    NetCall.getStreamUri "P1" ONVIFClient.rtspSetup ∈
      (ONVIFClient.get_stream_uri okDevice connectedState (some "P1")).calls ∧
    ONVIFClient.rtspSetup = ONVIFClient.rtspSetup :=
  ⟨by decide,
    C10_stream_setup_fixed_rtp_unicast_rtsp okDevice connectedState
      (some "P1") "P1" ONVIFClient.rtspSetup (by decide)⟩
